import Mathlib

/-!
Verification of the YouTube-Rewire background orchestrator (the service-worker
portion of `src/content.js`, lines 252-747 of the merged source file).

Modelling conventions for this shallow embedding:

* JS numbers are embedded as `ℚ` where fractional values arise (schedule
  timestamps produced by `Math.random()` arithmetic, watch durations) and as
  `ℤ` for wall-clock epoch-millisecond values returned by `Date.now()`.
* `Math.random()` draws are made explicit: a function that consumes randomness
  receives either a single draw `r : ℚ` or a stream `g : ℕ → ℚ` of draws
  together with (in theorems) the hypothesis `0 ≤ g k ∧ g k < 1`.
* `chrome.storage.local` is embedded as the record `Store`; reads and writes
  are modelled as atomic and the handlers as sequentially composed, in
  registration order.  `chrome.storage.local.set` merges keys, which the
  embedding renders as a record update of only the written fields.
* `chrome.alarms` is embedded as the list of registered alarm names
  (`BgState.alarms`); `chrome.alarms.clear` inside a prefix scan becomes
  `List.filter`.
* `setTimeout(() => triggerImmediateSession(...))` callbacks that have been
  scheduled but have not fired yet are embedded as `BgState.pending`; firing
  the oldest one is `firePendingImmediate`.
* A `startSession` message sent to a freshly created tab is recorded in
  `BgState.dispatched`; notifications and tab bookkeeping carry no state the
  claims mention and are dropped.
* JS truthiness of `x || y` on strings/numbers/optionals is embedded by the
  `jsStrOr` / `jsNumOr` / `jsNatOr` helpers (`undefined`, `""` and `0` are
  falsy).
* `generateSchedule` in the source reads its policy constants from the global
  `CONFIG` object; the embedding abstracts those constants as a `Config`
  argument, with `CONFIG` below being the source's literal values.
-/

namespace YTRewire

/-- The `CONFIG` object of the background worker (source lines 255-264). -/
structure Config where
  days : ℕ
  minSessionsPerDay : ℕ
  maxSessionsPerDay : ℕ
  minBetweenHours : ℚ
  maxBetweenHours : ℚ
  maxWatchSeconds : ℚ
  defaultKeywords : List String
  maxLogs : ℕ

/-- Literal values of the source's `CONFIG`. -/
def CONFIG : Config :=
  { days := 7
    minSessionsPerDay := 3
    maxSessionsPerDay := 5
    minBetweenHours := 2
    maxBetweenHours := 6
    maxWatchSeconds := 15 * 60
    defaultKeywords := ["popular tech news", "trending music", "funny cat videos"]
    maxLogs := 50 }

/-- Embedding of `rand(min, max) = Math.random() * (max - min) + min` with the
draw made explicit (source line 267). -/
def rand (lo hi r : ℚ) : ℚ :=
  r * (hi - lo) + lo

/-- Embedding of `randInt(min, max) = Math.floor(rand(min, max + 1))`
(source line 268). -/
def randInt (lo hi : ℚ) (r : ℚ) : ℤ :=
  ⌊rand lo (hi + 1) r⌋

/-- One inter-session gap in milliseconds:
`rand(CONFIG.minBetweenHours * 60 * 60 * 1000, CONFIG.maxBetweenHours * 60 * 60 * 1000)`
(source lines 297-300). -/
def gapMs (cfg : Config) (r : ℚ) : ℚ :=
  rand (cfg.minBetweenHours * 60 * 60 * 1000) (cfg.maxBetweenHours * 60 * 60 * 1000) r

/-- The inner `for (let s = 0; s < sessionCount; s++)` loop of
`generateSchedule` (source lines 294-301): emits `n` timestamps starting at
`ts`, advancing the cursor by a random gap after each emission.  Returns the
day's timestamps together with the index of the next unused random draw. -/
def daySessionTimes (cfg : Config) (g : ℕ → ℚ) : ℕ → ℚ → ℕ → List ℚ × ℕ
  | 0, _, i => ([], i)
  | n + 1, ts, i =>
    let rest := daySessionTimes cfg g n (ts + gapMs cfg (g i)) (i + 1)
    (ts :: rest.1, rest.2)

/-- The outer `for (let day = 0; day < CONFIG.days; day++)` loop of
`generateSchedule` (source lines 285-302), kept with per-day structure: each
iteration draws a session count in `[min, max]`, sets the cursor to
`startTs + day*24h + rand(0, 6h)` and runs `daySessionTimes`.  Arguments:
remaining days, current day index, next random-draw index. -/
def scheduleDays (cfg : Config) (startTs : ℚ) (g : ℕ → ℚ) : ℕ → ℕ → ℕ → List (List ℚ) × ℕ
  | 0, _, i => ([], i)
  | rem + 1, day, i =>
    let count := (randInt (cfg.minSessionsPerDay : ℚ) (cfg.maxSessionsPerDay : ℚ) (g i)).toNat
    let ts0 := startTs + (day : ℚ) * (24 * 60 * 60 * 1000) + rand 0 (6 * 60 * 60 * 1000) (g (i + 1))
    let d := daySessionTimes cfg g count ts0 (i + 2)
    let rest := scheduleDays cfg startTs g rem (day + 1) d.2
    (d.1 :: rest.1, rest.2)

/-- Embedding of `generateSchedule(startTs)` (source lines 283-304).  The source pushes all
sessions into one flat array; the per-day sublists of `scheduleDays` are
joined in the same order. -/
def generateSchedule (cfg : Config) (startTs : ℚ) (g : ℕ → ℚ) : List ℚ :=
  ((scheduleDays cfg startTs g cfg.days 0 0).1).flatten

/-- JS `a || b` for an optional string: `undefined` and `""` are falsy. -/
def jsStrOr (o : Option String) (d : String) : String :=
  match o with
  | some s => if s = "" then d else s
  | none => d

/-- JS `a || b` for an optional number: `undefined` and `0` are falsy. -/
def jsNumOr (o : Option ℚ) (d : ℚ) : ℚ :=
  match o with
  | some w => if w = 0 then d else w
  | none => d

/-- JS `a || b` for an optional count: `undefined` and `0` are falsy. -/
def jsNatOr (o : Option ℕ) (d : ℕ) : ℕ :=
  match o with
  | some n => if n = 0 then d else n
  | none => d

/-- The worker result message payload `{success, keyword, watchSeconds?,
videosWatched?, error?}` (content script lines 136 and 140).  Note it carries
no run id. -/
structure SessionResult where
  success : Bool
  keyword : String
  watchSeconds : Option ℚ
  videosWatched : Option ℕ
  error : Option String
deriving DecidableEq

/-- A persisted log entry.  The first `sessionResult` listener (lines 343-357)
and the two injection-failure paths build `{kind, message, details, time}`
objects (`note`); the second `sessionResult` listener (line 713) appends the
raw result object extended with `ts` and `tabId` (`raw`). -/
inductive LogEntry where
  | note (kind message details : String) (time : ℤ)
  | raw (result : SessionResult) (ts : ℤ) (tabId : Option ℕ)
deriving DecidableEq

/-- The `currentRun` object persisted by `scheduleAlarmsForRun`
(source lines 317-323). -/
structure CurrentRun where
  id : String
  startTs : ℤ
  schedule : List ℚ
  keywords : List String
  createdAt : ℤ
deriving DecidableEq

/-- The flat `chrome.storage.local` namespace, restricted to the keys the
background worker reads or writes.  `Option` marks keys that may be absent
(`undefined`) or explicitly `null`. -/
structure Store where
  isRunning : Bool
  runId : Option String
  daysCompleted : ℤ
  logs : List LogEntry
  keywords : Option (List String)
  startTs : Option ℤ
  immediateMode : Bool
  currentRun : Option CurrentRun
deriving DecidableEq

/-- A `setTimeout(() => triggerImmediateSession(keywords, runId), delay)`
callback that has been scheduled but has not fired yet (source lines 578-580,
595-597 and 723-725). -/
inductive PendingCall where
  | immediate (keywords : List String) (runId : Option String)
deriving DecidableEq

/-- Keywords carried by a pending call. -/
def PendingCall.keywords : PendingCall → List String
  | .immediate ks _ => ks

/-- Run id carried by a pending call. -/
def PendingCall.runId : PendingCall → Option String
  | .immediate _ rid => rid

/-- The payload of a `startSession` message sent to a tab (source lines
562-570 and 671-680): the chosen keyword and the run id it was attributed to. -/
structure SessionMsg where
  keyword : String
  runId : Option String
deriving DecidableEq

/-- Background-worker state: the durable store plus the host services the
worker drives (registered alarm names, pending `setTimeout` callbacks, and the
record of `startSession` dispatches sent to tabs). -/
structure BgState where
  store : Store
  alarms : List String
  pending : List PendingCall
  dispatched : List SessionMsg
deriving DecidableEq

/-- A store with no run ever started: all keys absent or at their JS-default
falsy values. -/
def initialStore : Store :=
  { isRunning := false
    runId := none
    daysCompleted := 0
    logs := []
    keywords := none
    startTs := none
    immediateMode := false
    currentRun := none }

/-- Embedding of `appendLog(entry)` (source lines 697-703): `logs.unshift(entry)` then
truncate to `CONFIG.maxLogs` entries. -/
def appendLog (logs : List LogEntry) (entry : LogEntry) : List LogEntry :=
  (entry :: logs).take CONFIG.maxLogs

/-- JS array indexing `l[i]`: `undefined` outside the valid range. -/
def jsIndex (l : List String) (i : ℤ) : Option String :=
  if h : 0 ≤ i ∧ i.toNat < l.length then some (l.get ⟨i.toNat, h.2⟩) else none

/-- Embedding of
`keywords[Math.floor(Math.random() * keywords.length)] || CONFIG.defaultKeywords[0]`,
the keyword-selection expression duplicated at source lines 536-538 and
656-658. -/
def chooseKeyword (keywords : List String) (r : ℚ) : String :=
  jsStrOr (jsIndex keywords ⌊r * (keywords.length : ℚ)⌋) (CONFIG.defaultKeywords.headD "")

/-- Name of a per-session alarm: `session-${runId}-${ts}` (source line 311). -/
def sessionAlarmName (runId : String) (ts : ℚ) : String :=
  "session-" ++ runId ++ "-" ++ toString ts

/-- Name of the terminal alarm: `end-${runId}` (source line 492). -/
def endAlarmName (runId : String) : String :=
  "end-" ++ runId

/-- Embedding of `triggerImmediateSession(keywords, runId)` (source lines 535-601).  The
success path creates a tab, injects the worker and sends `startSession`, and
in the send callback unconditionally schedules the next
`triggerImmediateSession` (lines 578-580); the failure path appends an error
log entry and unconditionally schedules a retry (lines 587-597).  `injectOk`
stands for whether tab creation/script injection succeeded, `errStr` for the
stringified error of the failure path, `now` for `Date.now()`. -/
def triggerImmediateSession (st : BgState) (keywords : List String) (runId : Option String)
    (r : ℚ) (injectOk : Bool) (errStr : String) (now : ℤ) : BgState :=
  let keyword := chooseKeyword keywords r
  if injectOk then
    { st with
      dispatched := st.dispatched ++ [{ keyword := keyword, runId := runId }]
      pending := st.pending ++ [PendingCall.immediate keywords runId] }
  else
    { st with
      store := { st.store with
                 logs := appendLog st.store.logs (LogEntry.note "error" "Session failure" errStr now) }
      pending := st.pending ++ [PendingCall.immediate keywords runId] }

/-- Fire the oldest pending `setTimeout(() => triggerImmediateSession(...))`
callback.  `setTimeout` callbacks run unconditionally when due; `stopBoost`
never cancels them. -/
def firePendingImmediate (st : BgState) (r : ℚ) (injectOk : Bool) (errStr : String)
    (now : ℤ) : BgState :=
  match st.pending with
  | [] => st
  | p :: rest =>
      triggerImmediateSession { st with pending := rest } p.keywords p.runId r injectOk errStr now

/-- Embedding of `triggerSession(alarmName)` (source lines 651-694): scheduled-mode
dispatch.  Reads `currentRun`, picks a keyword from `run.keywords ||
CONFIG.defaultKeywords`, opens a tab and sends `startSession` with
`runId: run.id`; on injection failure appends an error log entry and does not
retry. -/
def triggerSession (st : BgState) (alarmName : String) (r : ℚ) (injectOk : Bool)
    (errStr : String) (now : ℤ) : BgState :=
  let keywords :=
    match st.store.currentRun with
    | some cr => cr.keywords
    | none => CONFIG.defaultKeywords
  let keyword := chooseKeyword keywords r
  let _ := alarmName
  if injectOk then
    { st with
      dispatched := st.dispatched ++ [{ keyword := keyword, runId := st.store.currentRun.map CurrentRun.id }] }
  else
    { st with
      store := { st.store with
                 logs := appendLog st.store.logs (LogEntry.note "error" "Injection failure" errStr now) } }

/-- Result of a `start` request as surfaced to the user: either the run was
created, or the "A boost is already running" notification path was taken
(source lines 465-473). -/
inductive StartResult where
  | started (runId : String)
  | alreadyRunning
deriving DecidableEq

/-- Embedding of `startBoost(userKeywords)` (source lines 462-503).  Checks the persisted
`isRunning` flag; if a run is active it only raises a notification and
returns.  Otherwise it persists the new run state (preserving existing logs),
registers one `session-` alarm per schedule entry plus the `end-` alarm, and
stores `currentRun` metadata (via `scheduleAlarmsForRun`, lines 307-325). -/
def startBoost (st : BgState) (now : ℤ) (userKeywords : List String) (g : ℕ → ℚ) :
    BgState × StartResult :=
  if st.store.isRunning then (st, StartResult.alreadyRunning)
  else
    let runId := "run-" ++ toString now
    let keywords := if userKeywords.length ≠ 0 then userKeywords.take 20 else CONFIG.defaultKeywords
    let schedule := generateSchedule CONFIG (now : ℚ) g
    let store' : Store :=
      { st.store with
        isRunning := true
        runId := some runId
        daysCompleted := 0
        logs := st.store.logs
        keywords := some keywords
        startTs := some now
        currentRun := some
          { id := runId, startTs := now, schedule := schedule, keywords := keywords, createdAt := now } }
    let alarms' := st.alarms ++ schedule.map (fun ts => sessionAlarmName runId ts) ++ [endAlarmName runId]
    ({ st with store := store', alarms := alarms' }, StartResult.started runId)

/-- Embedding of `startImmediateSessions(userKeywords)` (source lines 506-532).  Note there
is no `isRunning` check: the run state is overwritten unconditionally, then
the first session is triggered. -/
def startImmediateSessions (st : BgState) (now : ℤ) (userKeywords : List String)
    (r : ℚ) (injectOk : Bool) (errStr : String) : BgState :=
  let keywords := if userKeywords.length ≠ 0 then userKeywords.take 20 else CONFIG.defaultKeywords
  let runId := "immediate-" ++ toString now
  let st' : BgState :=
    { st with
      store := { st.store with
                 isRunning := true
                 runId := some runId
                 keywords := some keywords
                 startTs := some now
                 immediateMode := true } }
  triggerImmediateSession st' keywords (some runId) r injectOk errStr now

/-- The run id `stopBoost` cancels for:
`(store.currentRun && store.currentRun.id) || store.runId` (source line 606). -/
def stopRunId (s : Store) : Option String :=
  match s.currentRun with
  | some cr => if cr.id = "" then s.runId else some cr.id
  | none => s.runId

/-- Embedding of `stopBoost()` (source lines 604-620).  If the computed run id is truthy,
`cancelRunAlarms` (lines 328-334) clears every alarm whose name starts with
`session-${runId}-`; the `end-${runId}` alarm does not match that scan.  Then
the run state is cleared.  Pending `setTimeout` callbacks are not cancelled. -/
def stopBoost (st : BgState) : BgState :=
  let alarms' :=
    match stopRunId st.store with
    | some r =>
        if r = "" then st.alarms
        else st.alarms.filter (fun n => !(("session-" ++ r ++ "-").data.isPrefixOf n.data))
    | none => st.alarms
  { st with
    alarms := alarms'
    store := { st.store with
               isRunning := false
               runId := none
               currentRun := none
               immediateMode := false } }

/-- Index of the last occurrence of a character, JS `lastIndexOf` made total
via `Option`. -/
def lastIdxOf (c : Char) (l : List Char) : Option ℕ :=
  match l.reverse.findIdx? (fun x => x == c) with
  | some j => some (l.length - 1 - j)
  | none => none

/-- Embedding of `raw.slice(0, raw.lastIndexOf("-"))` (source lines 631-632): when no dash
exists, `lastIndexOf` is `-1` and `slice(0, -1)` drops the final character. -/
def sliceUpToLastDash (s : String) : String :=
  match lastIdxOf '-' s.data with
  | some i => String.mk (s.data.take i)
  | none => String.mk (s.data.take (s.data.length - 1))

/-- Embedding of `store.runId && store.runId !== runId` (source line 635): false when the
persisted id is absent or the empty string, otherwise a plain mismatch test. -/
def jsRunIdMismatch (stored : Option String) (rid : String) : Bool :=
  match stored with
  | some s => if s = "" then false else s != rid
  | none => false

/-- The `chrome.alarms.onAlarm` handler (source lines 623-648).  `session-`
alarms extract the embedded run id and are dropped when the run is not active
or the persisted id mismatches; `end-` alarms unconditionally clear the run
state (no id comparison). -/
def onAlarm (st : BgState) (name : String) (r : ℚ) (injectOk : Bool) (errStr : String)
    (now : ℤ) : BgState :=
  if "session-".data.isPrefixOf name.data then
    let raw := String.mk (name.data.drop 8)
    let rid := sliceUpToLastDash raw
    if !st.store.isRunning || jsRunIdMismatch st.store.runId rid then st
    else triggerSession st name r injectOk errStr now
  else if "end-".data.isPrefixOf name.data then
    { st with
      store := { st.store with isRunning := false, currentRun := none, runId := none } }
  else st

/-- The log entry built by the first `sessionResult` listener
(source lines 343-357). -/
def resultNote (res : SessionResult) (now : ℤ) : LogEntry :=
  if res.success then
    LogEntry.note "success"
      ("Session completed: " ++ toString (jsNatOr res.videosWatched 1) ++ " videos watched")
      ("Keyword: \"" ++ res.keyword ++ "\", Watch time: " ++
        toString (round (jsNumOr res.watchSeconds 0)) ++ "s")
      now
  else
    LogEntry.note "error" "Session failed" (jsStrOr res.error "Unknown error") now

/-- The first `sessionResult` listener (source lines 337-361): appends a
kind-tagged entry, nothing else. -/
def sessionResultListenerA (st : BgState) (res : SessionResult) (now : ℤ) : BgState :=
  { st with store := { st.store with logs := appendLog st.store.logs (resultNote res now) } }

/-- The second `sessionResult` listener (source lines 706-747): appends the
raw result (with `ts` and `tabId`), closes the tab, reschedules an immediate
session iff `immediateMode && isRunning && keywords` are truthy (an empty
keyword array is truthy in JS), and updates `daysCompleted` from `startTs`.
No run id is compared anywhere. -/
def sessionResultListenerB (st : BgState) (res : SessionResult) (now : ℤ)
    (tabId : Option ℕ) : BgState :=
  let st1 : BgState :=
    { st with store := { st.store with logs := appendLog st.store.logs (LogEntry.raw res now tabId) } }
  let s := st1.store
  let st2 : BgState :=
    if s.immediateMode && s.isRunning && s.keywords.isSome then
      { st1 with pending := st1.pending ++ [PendingCall.immediate (s.keywords.getD []) s.runId] }
    else st1
  let dc : ℤ :=
    match s.startTs with
    | some t => if t = 0 then s.daysCompleted
                else min (⌊(((now : ℚ) - (t : ℚ)) / 86400000)⌋ + 1) (CONFIG.days : ℤ)
    | none => s.daysCompleted
  { st2 with store := { st2.store with daysCompleted := dc } }

/-- Effect of one incoming `sessionResult` message: both registered listeners
run, in registration order (first lines 337-361, then lines 706-747). -/
def handleSessionResult (st : BgState) (res : SessionResult) (now : ℤ)
    (tabId : Option ℕ) : BgState :=
  sessionResultListenerB (sessionResultListenerA st res now) res now tabId

/-- The gap constraint between two consecutive sessions of one day, in
milliseconds. -/
def gapRel (cfg : Config) (a b : ℚ) : Prop :=
  cfg.minBetweenHours * 60 * 60 * 1000 ≤ b - a ∧ b - a ≤ cfg.maxBetweenHours * 60 * 60 * 1000

/-- Random stream exhibiting the cross-day decrease of `generateSchedule`:
day 0 draws 9/10 everywhere (5 sessions, late offset, long gaps), day 1 draws
0 (earliest possible first session). -/
def gCex : ℕ → ℚ :=
  fun n => if n < 7 then 9 / 10 else 0

/-- A constant random stream used to instantiate hypotheses in witnesses. -/
def gHalf : ℕ → ℚ :=
  fun _ => 1 / 2

/-- Background state before any run was ever started. -/
def emptyBg : BgState :=
  { store := initialStore, alarms := [], pending := [], dispatched := [] }

/-- A state with an active scheduled run `run-1` started at epoch 0. -/
def c1St : BgState :=
  { emptyBg with
    store := { initialStore with
               isRunning := true, runId := some "run-1",
               keywords := some ["a"], startTs := some 0 } }

/-- A state with an active run `run-7`. -/
def c2St : BgState :=
  { emptyBg with store := { initialStore with isRunning := true, runId := some "run-7" } }

/-- A state with an active run `run-1` whose session alarm and terminal end
alarm are both registered. -/
def c3St : BgState :=
  { emptyBg with
    store := { initialStore with isRunning := true, runId := some "run-1" }
    alarms := ["session-run-1-500", "end-run-1"] }

/-- A failed worker result. -/
def c4Res : SessionResult :=
  { success := false, keyword := "cats", watchSeconds := none, videosWatched := none,
    error := some "boom" }

/-- A successful worker result. -/
def c4WitRes : SessionResult :=
  { success := true, keyword := "dogs", watchSeconds := some 30, videosWatched := some 2,
    error := none }

/-- A worker result arriving after its run was stopped. -/
def c5Res : SessionResult :=
  { success := false, keyword := "kw", watchSeconds := none, videosWatched := none,
    error := some "late" }

/-- Immediate run started from the empty state. -/
def c6StA : BgState :=
  startImmediateSessions emptyBg 1000 ["x"] 0 true ""

/-- The same run after `stopBoost`. -/
def c6StB : BgState :=
  stopBoost c6StA

/-- The state after the pending immediate-session callback, scheduled before
the stop, fires. -/
def c6StC : BgState :=
  firePendingImmediate c6StB 0 true "" 2000

/-- A state with an active run `run-200`. -/
def c9St : BgState :=
  { emptyBg with store := { initialStore with isRunning := true, runId := some "run-200" } }

/-- A state with an active run `run-8`. -/
def c9WitA : BgState :=
  { emptyBg with store := { initialStore with isRunning := true, runId := some "run-8" } }

/-- A state with an active run `run-300`. -/
def c9WitB : BgState :=
  { emptyBg with
    store := { initialStore with isRunning := true, runId := some "run-300", daysCompleted := 2 } }

/-- A sample log entry. -/
def sampleEntry : LogEntry :=
  LogEntry.note "success" "m" "d" 0

theorem rand_bounds (lo hi r : ℚ) (h0 : 0 ≤ r) (h1 : r < 1) (hlh : lo ≤ hi) :
    lo ≤ rand lo hi r ∧ rand lo hi r ≤ hi := by
  unfold rand
  constructor <;> nlinarith

theorem randInt_toNat_bounds (lo hi : ℕ) (r : ℚ) (hlh : lo ≤ hi) (h0 : 0 ≤ r) (h1 : r < 1) :
    lo ≤ (randInt (lo : ℚ) (hi : ℚ) r).toNat ∧ (randInt (lo : ℚ) (hi : ℚ) r).toNat ≤ hi := by
  have hq : (lo : ℚ) ≤ (hi : ℚ) := by exact_mod_cast hlh
  have hlow : (lo : ℤ) ≤ randInt (lo : ℚ) (hi : ℚ) r := by
    unfold randInt rand
    rw [Int.le_floor]
    push_cast
    nlinarith
  have hhigh : randInt (lo : ℚ) (hi : ℚ) r ≤ (hi : ℤ) := by
    unfold randInt rand
    rw [← Int.lt_add_one_iff, Int.floor_lt]
    push_cast
    nlinarith
  omega

theorem daySessionTimes_length (cfg : Config) (g : ℕ → ℚ) :
    ∀ (n : ℕ) (ts : ℚ) (i : ℕ), (daySessionTimes cfg g n ts i).1.length = n := by
  intro n
  induction n with
  | zero => intro ts i; rfl
  | succ m ih => intro ts i; simp [daySessionTimes, ih]

theorem daySessionTimes_chain (cfg : Config) (g : ℕ → ℚ)
    (hg : ∀ k, 0 ≤ g k ∧ g k < 1)
    (hb : cfg.minBetweenHours ≤ cfg.maxBetweenHours) :
    ∀ (n : ℕ) (ts : ℚ) (i : ℕ), List.Chain' (gapRel cfg) (daySessionTimes cfg g n ts i).1 := by
  intro n
  induction n with
  | zero => intro ts i; simp [daySessionTimes]
  | succ m ih =>
    intro ts i
    rw [show (daySessionTimes cfg g (m + 1) ts i).1 =
        ts :: (daySessionTimes cfg g m (ts + gapMs cfg (g i)) (i + 1)).1 from rfl]
    rw [List.chain'_cons']
    refine ⟨?_, ih _ _⟩
    intro y hy
    cases m with
    | zero => simp [daySessionTimes] at hy
    | succ k =>
      rw [show (daySessionTimes cfg g (k + 1) (ts + gapMs cfg (g i)) (i + 1)).1 =
          (ts + gapMs cfg (g i)) ::
            (daySessionTimes cfg g k
              (ts + gapMs cfg (g i) + gapMs cfg (g (i + 1))) (i + 2)).1 from rfl] at hy
      simp only [List.head?_cons, Option.mem_def, Option.some.injEq] at hy
      subst hy
      have hr := rand_bounds (cfg.minBetweenHours * 60 * 60 * 1000)
        (cfg.maxBetweenHours * 60 * 60 * 1000) (g i) (hg i).1 (hg i).2 (by nlinarith)
      have hsub : ts + gapMs cfg (g i) - ts = gapMs cfg (g i) := by ring
      exact ⟨by rw [hsub]; exact hr.1, by rw [hsub]; exact hr.2⟩

theorem scheduleDays_mem (cfg : Config) (startTs : ℚ) (g : ℕ → ℚ)
    (hg : ∀ k, 0 ≤ g k ∧ g k < 1)
    (hc : cfg.minSessionsPerDay ≤ cfg.maxSessionsPerDay)
    (hb : cfg.minBetweenHours ≤ cfg.maxBetweenHours) :
    ∀ (rem day i : ℕ), ∀ d ∈ (scheduleDays cfg startTs g rem day i).1,
      (cfg.minSessionsPerDay ≤ d.length ∧ d.length ≤ cfg.maxSessionsPerDay) ∧
      List.Chain' (gapRel cfg) d := by
  intro rem
  induction rem with
  | zero => intro day i d hd; simp [scheduleDays] at hd
  | succ m ih =>
    intro day i d hd
    simp only [scheduleDays, List.mem_cons] at hd
    rcases hd with hd | hd
    · subst hd
      refine ⟨?_, daySessionTimes_chain cfg g hg hb _ _ _⟩
      rw [daySessionTimes_length]
      exact randInt_toNat_bounds cfg.minSessionsPerDay cfg.maxSessionsPerDay (g i) hc
        (hg i).1 (hg i).2
    · exact ih _ _ d hd

/-- Claim C7, counterexample: at the source's own `CONFIG` policy and start
time 0, the random stream `gCex` makes the last session of day 0 (27.8 h)
fall after the first session of day 1 (24 h), so the generated schedule is
not non-decreasing across consecutive days. -/
theorem c7_counterexample :
    ¬ List.Chain' (· ≤ ·) (generateSchedule CONFIG 0 gCex) := by
  have h : generateSchedule CONFIG 0 gCex =
      [19440000, 39600000, 59760000, 79920000, 100080000,
       86400000, 93600000, 100800000,
       172800000, 180000000, 187200000,
       259200000, 266400000, 273600000,
       345600000, 352800000, 360000000,
       432000000, 439200000, 446400000,
       518400000, 525600000, 532800000] := by
    norm_num [generateSchedule, scheduleDays, daySessionTimes, gapMs, rand, randInt, gCex,
      CONFIG, Int.floor_eq_iff]
  rw [h]
  intro hc
  simp only [List.chain'_cons, List.chain'_singleton, and_true] at hc
  norm_num at hc

/-- Claim C7 (amended): for every start time, every policy with
`minSessions ≤ maxSessions` and `0 ≤ minGap ≤ maxGap`, and every random
stream with draws in `[0, 1)`, `generateSchedule` is the concatenation of the
per-day lists produced by `scheduleDays`, and WITHIN each day the session
count lies in `[minSessions, maxSessions]`, every gap between consecutive
entries lies in `[minGap, maxGap]` hours, and the entries are non-decreasing.
(The original claim's monotonicity ACROSS consecutive days is refuted by
`c7_counterexample`: a day's initial offset plus its gaps can overshoot the
next day's start.) -/
theorem c7_amended (cfg : Config) (startTs : ℚ) (g : ℕ → ℚ)
    (hg : ∀ k, 0 ≤ g k ∧ g k < 1)
    (hc : cfg.minSessionsPerDay ≤ cfg.maxSessionsPerDay)
    (h0 : 0 ≤ cfg.minBetweenHours) (hb : cfg.minBetweenHours ≤ cfg.maxBetweenHours) :
    generateSchedule cfg startTs g = ((scheduleDays cfg startTs g cfg.days 0 0).1).flatten ∧
    ∀ d ∈ (scheduleDays cfg startTs g cfg.days 0 0).1,
      (cfg.minSessionsPerDay ≤ d.length ∧ d.length ≤ cfg.maxSessionsPerDay) ∧
      List.Chain' (gapRel cfg) d ∧ List.Chain' (· ≤ ·) d := by
  refine ⟨rfl, fun d hd => ?_⟩
  obtain ⟨hlen, hchain⟩ := scheduleDays_mem cfg startTs g hg hc hb cfg.days 0 0 d hd
  refine ⟨hlen, hchain, hchain.imp ?_⟩
  intro a b hab
  have h1 := hab.1
  nlinarith [h1]

/-- Witness for `c7_amended` at the source's `CONFIG`, start time 0 and the
constant stream `gHalf`. -/
theorem c7_witness :
    generateSchedule CONFIG 0 gHalf = ((scheduleDays CONFIG 0 gHalf CONFIG.days 0 0).1).flatten ∧
    CONFIG.minSessionsPerDay ≤
      (((scheduleDays CONFIG 0 gHalf CONFIG.days 0 0).1).headD []).length := by
  have h := c7_amended CONFIG 0 gHalf (fun k => by norm_num [gHalf]) (by norm_num [CONFIG])
    (by norm_num [CONFIG]) (by norm_num [CONFIG])
  refine ⟨h.1, ?_⟩
  have hne : (scheduleDays CONFIG 0 gHalf CONFIG.days 0 0).1 ≠ [] := by
    rw [show CONFIG.days = 6 + 1 from rfl]
    simp [scheduleDays]
  cases hl : (scheduleDays CONFIG 0 gHalf CONFIG.days 0 0).1 with
  | nil => exact absurd hl hne
  | cons a as =>
    have hmem : a ∈ (scheduleDays CONFIG 0 gHalf CONFIG.days 0 0).1 := by
      rw [hl]; exact List.mem_cons_self a as
    have := (h.2 a hmem).1.1
    simpa [hl] using this

theorem appendLog_eq_cons (logs : List LogEntry) (e : LogEntry)
    (h : logs.length + 1 ≤ CONFIG.maxLogs) : appendLog logs e = e :: logs := by
  unfold appendLog
  exact List.take_of_length_le (by simpa using h)

theorem appendLog_head (logs : List LogEntry) (e : LogEntry) :
    (appendLog logs e).head? = some e := by
  unfold appendLog
  rw [show CONFIG.maxLogs = 49 + 1 from rfl, List.take_succ_cons]
  rfl

theorem appendLog_length_le (logs : List LogEntry) (e : LogEntry) :
    (appendLog logs e).length ≤ CONFIG.maxLogs := by
  unfold appendLog
  simp [List.length_take]

theorem take_append_take {α : Type} (A C : List α) (n : ℕ) :
    (A ++ C.take n).take n = (A ++ C).take n := by
  rw [List.take_append_eq_append_take, List.take_append_eq_append_take, List.take_take,
    Nat.min_eq_left (Nat.sub_le _ _)]

theorem foldl_appendLog_of_le (entries : List LogEntry) :
    ∀ init : List LogEntry, init.length ≤ CONFIG.maxLogs →
      entries.foldl appendLog init = (entries.reverse ++ init).take CONFIG.maxLogs := by
  induction entries with
  | nil =>
    intro init h
    simp [List.take_of_length_le h]
  | cons e tl ih =>
    intro init h
    rw [List.foldl_cons, ih (appendLog init e) (appendLog_length_le init e)]
    unfold appendLog
    rw [take_append_take, List.reverse_cons, List.append_assoc]
    rfl

/-- Claim C8: appending `L_max + k` entries through `appendLog` leaves exactly
`L_max` entries, newest-first, equal to the last `L_max` entries appended
(i.e. the reversed suffix), and no single append ever leaves more than
`L_max` entries. -/
theorem c8_confirmed (init entries : List LogEntry) (h : CONFIG.maxLogs ≤ entries.length) :
    entries.foldl appendLog init = entries.reverse.take CONFIG.maxLogs ∧
    (entries.foldl appendLog init).length = CONFIG.maxLogs ∧
    ∀ (logs : List LogEntry) (e : LogEntry), (appendLog logs e).length ≤ CONFIG.maxLogs := by
  obtain ⟨e, tl, rfl⟩ : ∃ e tl, entries = e :: tl := by
    cases entries with
    | nil => simp [CONFIG] at h
    | cons a as => exact ⟨a, as, rfl⟩
  have h1 : (e :: tl).foldl appendLog init = ((e :: tl).reverse ++ init).take CONFIG.maxLogs := by
    rw [List.foldl_cons, foldl_appendLog_of_le tl (appendLog init e) (appendLog_length_le init e)]
    unfold appendLog
    rw [take_append_take, List.reverse_cons, List.append_assoc]
    rfl
  have h2 : ((e :: tl).reverse ++ init).take CONFIG.maxLogs =
      ((e :: tl).reverse).take CONFIG.maxLogs :=
    List.take_append_of_le_length (by simpa using h)
  refine ⟨h1.trans h2, ?_, fun logs en => appendLog_length_le logs en⟩
  rw [h1.trans h2]
  simp only [List.length_take, List.length_reverse]
  simpa using Nat.min_eq_left h

/-- Witness for `c8_confirmed`: fifty appends into an empty log. -/
theorem c8_witness :
    (List.replicate CONFIG.maxLogs sampleEntry).foldl appendLog [] =
      (List.replicate CONFIG.maxLogs sampleEntry).reverse.take CONFIG.maxLogs ∧
    ((List.replicate CONFIG.maxLogs sampleEntry).foldl appendLog []).length = CONFIG.maxLogs := by
  have h := c8_confirmed [] (List.replicate CONFIG.maxLogs sampleEntry) (by simp)
  exact ⟨h.1, h.2.1⟩

/-- Claim C2: if a run is already active, a second `startBoost` takes the
notification path and returns with the whole state (persisted run fields,
alarms, everything) unchanged: no new run id, schedule or timers. -/
theorem c2_confirmed (st : BgState) (now : ℤ) (userKeywords : List String) (g : ℕ → ℚ)
    (h : st.store.isRunning = true) :
    startBoost st now userKeywords g = (st, StartResult.alreadyRunning) := by
  simp [startBoost, h]

/-- Witness for `c2_confirmed` at a concrete active-run state. -/
theorem c2_witness :
    startBoost c2St 99 [] gHalf = (c2St, StartResult.alreadyRunning) :=
  c2_confirmed c2St 99 [] gHalf rfl

/-- Claim C1, counterexample: with run `run-1` active (`isRunning = true`),
`startImmediateSessions` does not fail and does not leave the persisted run
state unchanged: it overwrites `startTs` (here 0 becomes 5) and dispatches a
session for the new immediate run. -/
theorem c1_counterexample :
    c1St.store.isRunning = true ∧
    c1St.store.startTs = some 0 ∧
    (startImmediateSessions c1St 5 [] 0 true "").store.startTs = some 5 ∧
    (startImmediateSessions c1St 5 [] 0 true "").dispatched.length = 1 :=
  ⟨rfl, rfl, rfl, rfl⟩

/-- Claim C1 (amended): `startImmediateSessions` performs no run-uniqueness
check at all.  For every state — in particular any state with a run already
active — it unconditionally overwrites the persisted run state with a fresh
`immediate-<now>` run (`isRunning` true, new `runId`, new `keywords`, new
`startTs`, `immediateMode` set) and, when injection succeeds, dispatches the
first session of that new run. -/
theorem c1_amended (st : BgState) (now : ℤ) (userKeywords : List String) (r : ℚ)
    (injectOk : Bool) (errStr : String) :
    (startImmediateSessions st now userKeywords r injectOk errStr).store.isRunning = true ∧
    (startImmediateSessions st now userKeywords r injectOk errStr).store.runId =
      some ("immediate-" ++ toString now) ∧
    (startImmediateSessions st now userKeywords r injectOk errStr).store.startTs = some now ∧
    (startImmediateSessions st now userKeywords r injectOk errStr).store.immediateMode = true ∧
    (startImmediateSessions st now userKeywords r injectOk errStr).store.keywords =
      some (if userKeywords.length ≠ 0 then userKeywords.take 20 else CONFIG.defaultKeywords) ∧
    (startImmediateSessions st now userKeywords r injectOk errStr).dispatched =
      st.dispatched ++
        (if injectOk then
          [{ keyword := chooseKeyword
               (if userKeywords.length ≠ 0 then userKeywords.take 20 else CONFIG.defaultKeywords) r,
             runId := some ("immediate-" ++ toString now) }]
        else []) := by
  unfold startImmediateSessions triggerImmediateSession
  cases injectOk <;> simp

theorem sessionPfx_not_end (r s : String) :
    (("session-" ++ r ++ "-").data.isPrefixOf ("end-" ++ s).data) = false :=
  rfl

/-- Claim C3, counterexample: stopping the active run `run-1` cancels its
session alarm but leaves its terminal `end-run-1` alarm registered, although
that alarm's name embeds the active run id. -/
theorem c3_counterexample :
    c3St.store.isRunning = true ∧
    c3St.alarms = ["session-run-1-500", endAlarmName "run-1"] ∧
    (stopBoost c3St).alarms = [endAlarmName "run-1"] := by
  refine ⟨rfl, by decide, by decide⟩

/-- Claim C3 (amended): `stopBoost` cancels exactly the timers whose names
start with `session-<activeRunId>-`; every other timer — including the active
run's own `end-<runId>` terminal timer and any timer of a different run —
survives, the run state is cleared and the logs are untouched. -/
theorem c3_amended (st : BgState) (r : String)
    (h1 : stopRunId st.store = some r) (h2 : r ≠ "") :
    (stopBoost st).alarms =
      st.alarms.filter (fun n => !(("session-" ++ r ++ "-").data.isPrefixOf n.data)) ∧
    (∀ n ∈ st.alarms, (("session-" ++ r ++ "-").data.isPrefixOf n.data) = false →
      n ∈ (stopBoost st).alarms) ∧
    (endAlarmName r ∈ st.alarms → endAlarmName r ∈ (stopBoost st).alarms) ∧
    (stopBoost st).store.isRunning = false ∧
    (stopBoost st).store.runId = none ∧
    (stopBoost st).store.currentRun = none ∧
    (stopBoost st).store.logs = st.store.logs := by
  have halarms : (stopBoost st).alarms =
      st.alarms.filter (fun n => !(("session-" ++ r ++ "-").data.isPrefixOf n.data)) := by
    unfold stopBoost
    rw [h1]
    simp [h2]
  refine ⟨halarms, ?_, ?_, rfl, rfl, rfl, rfl⟩
  · intro n hn hp
    rw [halarms]
    exact List.mem_filter.mpr ⟨hn, by rw [hp]; rfl⟩
  · intro hmem
    rw [halarms]
    refine List.mem_filter.mpr ⟨hmem, ?_⟩
    show (!(("session-" ++ r ++ "-").data.isPrefixOf ("end-" ++ r).data)) = true
    rw [sessionPfx_not_end]
    rfl

/-- Witness for `c3_amended` at the concrete state `c3St`. -/
theorem c3_witness :
    (endAlarmName "run-1" ∈ c3St.alarms → endAlarmName "run-1" ∈ (stopBoost c3St).alarms) ∧
    (stopBoost c3St).store.isRunning = false ∧
    (stopBoost c3St).store.logs = c3St.store.logs := by
  have h := c3_amended c3St "run-1" rfl (by decide)
  exact ⟨h.2.2.1, h.2.2.2.1, h.2.2.2.2.2.2⟩

theorem sessionResultListenerB_logs (st : BgState) (res : SessionResult) (now : ℤ)
    (tabId : Option ℕ) :
    (sessionResultListenerB st res now tabId).store.logs =
      appendLog st.store.logs (LogEntry.raw res now tabId) := by
  unfold sessionResultListenerB
  dsimp only
  split <;> rfl

theorem sessionResultListenerB_pending (st : BgState) (res : SessionResult) (now : ℤ)
    (tabId : Option ℕ) :
    (sessionResultListenerB st res now tabId).pending =
      st.pending ++
        (if st.store.immediateMode && st.store.isRunning && st.store.keywords.isSome then
          [PendingCall.immediate (st.store.keywords.getD []) st.store.runId]
        else []) := by
  unfold sessionResultListenerB
  dsimp only
  split <;> rename_i hc <;> simp_all

theorem handleSessionResult_logs (st : BgState) (res : SessionResult) (now : ℤ)
    (tabId : Option ℕ) :
    (handleSessionResult st res now tabId).store.logs =
      appendLog (appendLog st.store.logs (resultNote res now)) (LogEntry.raw res now tabId) := by
  unfold handleSessionResult
  rw [sessionResultListenerB_logs]
  rfl

theorem handleSessionResult_pending (st : BgState) (res : SessionResult) (now : ℤ)
    (tabId : Option ℕ) :
    (handleSessionResult st res now tabId).pending =
      st.pending ++
        (if st.store.immediateMode && st.store.isRunning && st.store.keywords.isSome then
          [PendingCall.immediate (st.store.keywords.getD []) st.store.runId]
        else []) := by
  unfold handleSessionResult
  rw [sessionResultListenerB_pending]
  rfl

/-- Claim C4, counterexample: one incoming worker result appends TWO log
entries, not one — both registered `sessionResult` listeners run, the first
appending a kind-tagged entry and the second the raw result object. -/
theorem c4_counterexample :
    emptyBg.store.logs.length = 0 ∧
    (handleSessionResult emptyBg c4Res 3 none).store.logs.length = 2 :=
  ⟨rfl, rfl⟩

/-- Claim C4 (amended): each worker result message appends exactly two log
entries (below the cap): the raw result object from the second listener on
top of a kind-tagged entry from the first listener — `success`-tagged when
`success:true`, `error`-tagged with the error text when `success:false`. -/
theorem c4_amended (st : BgState) (res : SessionResult) (now : ℤ) (tabId : Option ℕ)
    (h : st.store.logs.length + 2 ≤ CONFIG.maxLogs) :
    (handleSessionResult st res now tabId).store.logs =
      LogEntry.raw res now tabId :: resultNote res now :: st.store.logs ∧
    (res.success = true →
      resultNote res now = LogEntry.note "success"
        ("Session completed: " ++ toString (jsNatOr res.videosWatched 1) ++ " videos watched")
        ("Keyword: \"" ++ res.keyword ++ "\", Watch time: " ++
          toString (round (jsNumOr res.watchSeconds 0)) ++ "s") now) ∧
    (res.success = false →
      resultNote res now =
        LogEntry.note "error" "Session failed" (jsStrOr res.error "Unknown error") now) := by
  refine ⟨?_, fun hs => by simp [resultNote, hs], fun hs => by simp [resultNote, hs]⟩
  rw [handleSessionResult_logs]
  rw [appendLog_eq_cons st.store.logs (resultNote res now) (by omega)]
  rw [appendLog_eq_cons _ _ (by simp; omega)]

/-- Witness for `c4_amended`: a successful result into an empty log. -/
theorem c4_witness :
    (handleSessionResult emptyBg c4WitRes 7 none).store.logs =
      LogEntry.raw c4WitRes 7 none :: resultNote c4WitRes 7 :: emptyBg.store.logs :=
  (c4_amended emptyBg c4WitRes 7 none (by decide)).1

/-- Claim C5, counterexample: a worker result processed after the run was
stopped (persisted `runId` is `none`, so any originating run id is stale) is
not dropped: it still mutates the log, appending two entries. -/
theorem c5_counterexample :
    emptyBg.store.isRunning = false ∧
    emptyBg.store.runId = none ∧
    emptyBg.store.logs.length = 0 ∧
    (handleSessionResult emptyBg c5Res 11 none).store.logs.length = 2 :=
  ⟨rfl, rfl, rfl, rfl⟩

/-- Claim C5 (amended): the result handler performs no run-id check (the
result message carries no run id at all).  Every result is logged — the raw
entry always becomes the log head — and a follow-up dispatch is scheduled
exactly when the CURRENT store has `immediateMode`, `isRunning` and a
`keywords` key, regardless of which run produced the result. -/
theorem c5_amended (st : BgState) (res : SessionResult) (now : ℤ) (tabId : Option ℕ) :
    (handleSessionResult st res now tabId).store.logs.head? =
      some (LogEntry.raw res now tabId) ∧
    (handleSessionResult st res now tabId).pending =
      st.pending ++
        (if st.store.immediateMode && st.store.isRunning && st.store.keywords.isSome then
          [PendingCall.immediate (st.store.keywords.getD []) st.store.runId]
        else []) := by
  refine ⟨?_, handleSessionResult_pending st res now tabId⟩
  rw [handleSessionResult_logs]
  exact appendLog_head _ _

/-- Claim C6, counterexample: `startImmediateSessions` dispatches a first
session and leaves one pending self-scheduled follow-up; after `stopBoost`
flips `isRunning` to false that pending callback still fires
`triggerImmediateSession`, which dispatches a further session — stopping does
not prevent the next dispatch. -/
theorem c6_counterexample :
    c6StB.store.isRunning = false ∧
    c6StB.store.immediateMode = false ∧
    c6StB.dispatched.length = 1 ∧
    c6StC.dispatched.length = 2 :=
  ⟨rfl, rfl, rfl, rfl⟩

/-- Claim C6 (amended): the RESULT handler schedules exactly one follow-up
dispatch iff `immediateMode && isRunning && keywords` hold in the current
store; but `triggerImmediateSession` itself — the loop iteration — reads no
store state: on every successful dispatch it unconditionally self-schedules
another iteration, so a follow-up pending at the moment `stop()` runs still
dispatches a session afterwards. -/
theorem c6_amended (st : BgState) (res : SessionResult) (now : ℤ) (tabId : Option ℕ)
    (keywords : List String) (runId : Option String) (r : ℚ) (errStr : String) (now2 : ℤ) :
    (handleSessionResult st res now tabId).pending =
      st.pending ++
        (if st.store.immediateMode && st.store.isRunning && st.store.keywords.isSome then
          [PendingCall.immediate (st.store.keywords.getD []) st.store.runId]
        else []) ∧
    (triggerImmediateSession st keywords runId r true errStr now2).dispatched =
      st.dispatched ++ [{ keyword := chooseKeyword keywords r, runId := runId }] ∧
    (triggerImmediateSession st keywords runId r true errStr now2).pending =
      st.pending ++ [PendingCall.immediate keywords runId] :=
  ⟨handleSessionResult_pending st res now tabId, rfl, rfl⟩

/-- Claim C9, counterexample: the `end-run-100` terminal alarm of a PREVIOUS
run fires while run `run-200` is active; the handler compares no run id and
clears the current run's state (`isRunning` forced to false, `runId` to
`none`). -/
theorem c9_counterexample :
    c9St.store.isRunning = true ∧
    c9St.store.runId = some "run-200" ∧
    (onAlarm c9St "end-run-100" 0 true "" 0).store.isRunning = false ∧
    (onAlarm c9St "end-run-100" 0 true "" 0).store.runId = none := by
  refine ⟨rfl, rfl, by decide, by decide⟩

/-- Claim C9 (amended): a `session-` alarm whose embedded run id mismatches
the (nonempty) persisted run id is ignored — the state is returned unchanged,
no dispatch happens.  An `end-` alarm, however, is processed with NO run-id
comparison: it unconditionally forces `isRunning := false`, `runId := none`
and `currentRun := none`, even when its embedded run id is stale. -/
theorem c9_amended (st : BgState) (name : String) (r : ℚ) (injectOk : Bool)
    (errStr : String) (now : ℤ) :
    (("session-".data.isPrefixOf name.data) = true →
      jsRunIdMismatch st.store.runId (sliceUpToLastDash (String.mk (name.data.drop 8))) = true →
      onAlarm st name r injectOk errStr now = st) ∧
    (("session-".data.isPrefixOf name.data) = false →
      ("end-".data.isPrefixOf name.data) = true →
      (onAlarm st name r injectOk errStr now).store =
        { st.store with isRunning := false, currentRun := none, runId := none }) := by
  constructor
  · intro h1 h2
    simp [onAlarm, h1, h2]
  · intro h1 h2
    simp [onAlarm, h1, h2]

/-- Witness for `c9_amended`: a stale session alarm is dropped at `c9WitA`,
and an end alarm clears the run state at `c9WitB`. -/
theorem c9_witness :
    onAlarm c9WitA "session-run-9-77" 0 true "" 0 = c9WitA ∧
    (onAlarm c9WitB "end-run-55" 0 true "" 0).store =
      { c9WitB.store with isRunning := false, currentRun := none, runId := none } :=
  ⟨(c9_amended c9WitA "session-run-9-77" 0 true "" 0).1 (by decide) (by decide),
   (c9_amended c9WitB "end-run-55" 0 true "" 0).2 (by decide) (by decide)⟩

/-- Claim C10: for every keyword list — including the empty list and lists
whose randomly selected element is the empty string — the keyword placed in
the `startSession` dispatch message is a defined, non-empty string: JS `||`
falls back to the first built-in default keyword; and both the immediate-mode
and the scheduled-mode dispatch paths put exactly `chooseKeyword`'s value in
the message. -/
theorem c10_confirmed (keywords : List String) (r : ℚ) (st : BgState)
    (runId : Option String) (errStr : String) (now : ℤ) (alarmName : String) :
    chooseKeyword keywords r ≠ "" ∧
    (triggerImmediateSession st keywords runId r true errStr now).dispatched =
      st.dispatched ++ [{ keyword := chooseKeyword keywords r, runId := runId }] ∧
    (triggerSession st alarmName r true errStr now).dispatched =
      st.dispatched ++
        [{ keyword := chooseKeyword
             (match st.store.currentRun with
              | some cr => cr.keywords
              | none => CONFIG.defaultKeywords) r,
           runId := st.store.currentRun.map CurrentRun.id }] := by
  refine ⟨?_, rfl, rfl⟩
  unfold chooseKeyword jsStrOr
  rcases hidx : jsIndex keywords ⌊r * (keywords.length : ℚ)⌋ with _ | s
  · simp [CONFIG]
  · by_cases hs : s = ""
    · simp [hs, CONFIG]
    · simp [hs]

end YTRewire
